import Mathlib

/-!
Verification of the Placement Portal (Streamlit + MySQL, `app.py`).

The file shallowly embeds the behaviour of `app.py`: the database tables
become Lean lists of records, the per-page form handlers become functions
producing traces of database operations, and Python value coercions
(`str.isdigit`, `int`, `float`, truthiness) become executable Lean
functions.  External effects (the MySQL server, `hashlib.sha256`) are
parameters of the embedding: what is proved is how this layer combines
them, never their internals.
-/

namespace PlacementPortal

/-! ## Python value helpers -/

/-- Python truthiness of a string: the empty string is falsy
(used by `if not (roll and first and ...)` in `page_students` and by
the `and`-chain itself). -/
def pyTruthyStr (s : String) : Bool :=
  !s.isEmpty

/-- Python truthiness of an optional integer (`auth.get("student_id")` in
`main`): `None` and `0` are falsy, every other integer truthy. -/
def pyTruthyOptInt : Option Int → Bool
  | none => false
  | some n => decide (n ≠ 0)

/-- Python `str.isdigit` restricted to ASCII text: non-empty and all
characters decimal digits.  (`batch.isdigit()` in `page_students`.) -/
def pyIsDigit (s : String) : Bool :=
  !s.isEmpty && s.toList.all Char.isDigit

/-- Python `int` applied to a string that `pyIsDigit` accepts
(`int(batch)` in `page_students`). -/
def pyIntOfDigits (s : String) : Nat :=
  s.toList.foldl (fun a c => 10 * a + (c.toNat - 48)) 0

/-- The result of a successful Python `float(...)` call. -/
inductive PyFloat where
  | finite (q : Rat)
  | inf
  | negInf
  | nan
deriving DecidableEq, Repr

/-- Numeric value of a list of decimal digit characters. -/
def digitsVal (cs : List Char) : Nat :=
  cs.foldl (fun a c => 10 * a + (c.toNat - 48)) 0

/-- Parse the mantissa `digits [. digits]` part of a float literal.
Returns the integer digits and fractional digits when well formed. -/
def parseMantissa (cs : List Char) : Option (List Char × List Char) :=
  let ip := cs.takeWhile Char.isDigit
  let rest := cs.dropWhile Char.isDigit
  match rest with
  | [] => if ip.isEmpty then none else some (ip, [])
  | c :: fs =>
      if c = '.' ∧ fs.all Char.isDigit ∧ (!ip.isEmpty ∨ !fs.isEmpty) then
        some (ip, fs)
      else none

/-- Parse the exponent part (after `e`/`E`): optional sign then at least
one digit.  Returns the signed exponent. -/
def parseExponent (cs : List Char) : Option Int :=
  let (sgn, ds) : Int × List Char :=
    match cs with
    | '+' :: rest => (1, rest)
    | '-' :: rest => (-1, rest)
    | _ => (1, cs)
  if ds.isEmpty || !ds.all Char.isDigit then none
  else some (sgn * (digitsVal ds : Int))

/-- Model of CPython `float(s)` on ordinary text: strip surrounding
whitespace, optional sign, then either `inf`/`infinity`/`nan`
(case-insensitive) or a decimal literal `digits[.digits][(e|E)[sign]digits]`.
Underscore separators and non-ASCII digits are outside the model.
Returns `none` when `float` would raise `ValueError`. -/
def pyFloat (s : String) : Option PyFloat :=
  let cs := (s.toList.dropWhile Char.isWhitespace).reverse
  let cs := (cs.dropWhile Char.isWhitespace).reverse
  let (neg, body) : Bool × List Char :=
    match cs with
    | '+' :: rest => (false, rest)
    | '-' :: rest => (true, rest)
    | _ => (false, cs)
  let lowered := String.mk (body.map Char.toLower)
  if lowered = "inf" ∨ lowered = "infinity" then
    some (if neg then PyFloat.negInf else PyFloat.inf)
  else if lowered = "nan" then
    some PyFloat.nan
  else
    let mant := body.takeWhile (fun c => c ≠ 'e' ∧ c ≠ 'E')
    let rest := body.dropWhile (fun c => c ≠ 'e' ∧ c ≠ 'E')
    match parseMantissa mant with
    | none => none
    | some (ip, fp) =>
        let mval : Rat := (digitsVal ip : Rat) + (digitsVal fp : Rat) / ((10 : Rat) ^ fp.length)
        match rest with
        | [] => some (PyFloat.finite (if neg then -mval else mval))
        | _ :: es =>
            match parseExponent es with
            | none => none
            | some e =>
                let v := mval * (10 : Rat) ^ e
                some (PyFloat.finite (if neg then -v else v))

/-! ## SQL operation traces

Every database access in `app.py` goes through three helpers — `query`
(SELECT returning rows), `execute` (INSERT/UPDATE/DELETE), and
`call_proc` (stored procedure).  A handler's observable effect on the
database layer is the ordered list of such operations it issues. -/

/-- A parameter value passed to a parameterized SQL statement. -/
inductive SqlVal where
  | intV (n : Int)
  | strV (s : String)
  | floatV (f : PyFloat)
  | dtV (year month day hour minute second : Nat)
  | nullV
deriving DecidableEq, Repr

/-- One database operation issued by the application layer. -/
inductive DbOp where
  | queryOp (sql : String) (params : List SqlVal)
  | executeOp (sql : String) (params : List SqlVal)
  | callProcOp (name : String) (args : List SqlVal)
deriving DecidableEq, Repr

/-! ## C1 — authentication (`authenticate`, `sha256_hex`) -/

/-- A row of the `users` table, as selected by `authenticate`:
`SELECT user_id, username, password_hash, role, student_id FROM users`. -/
structure UserRow where
  user_id : Int
  username : String
  password_hash : String
  role : String
  student_id : Option Int
deriving DecidableEq, Repr

/-- The dictionary `authenticate` returns on success. -/
structure AuthUser where
  user_id : Int
  username : String
  role : String
  student_id : Option Int
deriving DecidableEq, Repr

/-- Projection of a `users` row to the session dictionary built at the
end of `authenticate`. -/
def authUserOf (u : UserRow) : AuthUser :=
  { user_id := u.user_id, username := u.username, role := u.role,
    student_id := u.student_id }

/-- Semantics of `SELECT ... FROM users WHERE username=%s`: the rows of
the table whose `username` column equals the parameter, in table order. -/
def usersByUsername (db : List UserRow) (username : String) : List UserRow :=
  db.filter (fun u => u.username = username)

/-- `authenticate(username, password)` from `app.py`.  `H` stands for
`sha256_hex` (an external `hashlib` call): the function that maps a
password string to the lowercase hex SHA-256 digest of its UTF-8 bytes.
The code takes the first row of the WHERE-filtered result (`rows[0]`),
compares its stored hash against `H password`, and on success returns
the session dictionary. -/
def authenticate (H : String → String) (db : List UserRow)
    (username password : String) : Option AuthUser :=
  match usersByUsername db username with
  | [] => none
  | u :: _ =>
      if u.password_hash = H password then some (authUserOf u) else none

theorem usersByUsername_mem_username {db : List UserRow} {un : String}
    {u : UserRow} (h : u ∈ usersByUsername db un) :
    u ∈ db ∧ u.username = un := by
  have h' := List.mem_filter.mp h
  exact ⟨h'.1, by simpa using h'.2⟩

/-- When the table's usernames are pairwise distinct, the WHERE-filter
for a username has at most one row, so any two members coincide. -/
theorem usersByUsername_unique {db : List UserRow} {un : String}
    (hnd : (db.map (fun u => u.username)).Nodup)
    {u v : UserRow} (hu : u ∈ usersByUsername db un)
    (hv : v ∈ usersByUsername db un) : u = v := by
  have hsub : (usersByUsername db un).Sublist db := List.filter_sublist db
  have hnd' : ((usersByUsername db un).map (fun u => u.username)).Nodup :=
    hnd.sublist (hsub.map _)
  cases hl : usersByUsername db un with
  | nil => simp [hl] at hu
  | cons w ws =>
      rw [hl] at hu hv hnd'
      have hwsn : ∀ x ∈ ws, x.username = un := by
        intro x hx
        exact (usersByUsername_mem_username (hl ▸ List.mem_cons_of_mem w hx)).2
      have hwun : w.username = un :=
        (usersByUsername_mem_username (hl ▸ List.mem_cons_self w ws)).2
      have hnotin : ∀ x ∈ ws, x.username ≠ w.username := by
        intro x hx heq
        exact (List.nodup_cons.mp hnd').1
          (by simpa [heq] using List.mem_map_of_mem (fun u => u.username) hx)
      rcases List.mem_cons.mp hu with hu1 | hu2
      · rcases List.mem_cons.mp hv with hv1 | hv2
        · rw [hu1, hv1]
        · exact absurd ((hwsn v hv2).trans hwun.symm) (hnotin v hv2)
      · exact absurd ((hwsn u hu2).trans hwun.symm) (hnotin u hu2)

/-- C1: `authenticate` returns a user record (user_id, username, role,
student_id) if and only if the `users` table holds a row for the supplied
username whose stored `password_hash` equals `sha256_hex` of the supplied
password (the digest function `H`); in every other case — no row, or hash
mismatch — it returns `None`.  Stated for tables whose usernames are
pairwise distinct, as `users.username` is the login key. -/
theorem authenticate_iff_matching_row (H : String → String)
    (db : List UserRow) (un pw : String)
    (hnd : (db.map (fun u => u.username)).Nodup) (rec : AuthUser) :
    authenticate H db un pw = some rec ↔
      ∃ u ∈ db, u.username = un ∧ u.password_hash = H pw ∧ rec = authUserOf u := by
  unfold authenticate
  cases hl : usersByUsername db un with
  | nil =>
      simp only [reduceCtorEq, false_iff]
      rintro ⟨u, hu, hun, -, -⟩
      have : u ∈ usersByUsername db un :=
        List.mem_filter.mpr ⟨hu, by simpa using hun⟩
      simp [hl] at this
  | cons w ws =>
      have hwmem : w ∈ usersByUsername db un := hl ▸ List.mem_cons_self w ws
      have hwdb := usersByUsername_mem_username hwmem
      by_cases hpw : w.password_hash = H pw
      · simp only [hpw, eq_self_iff_true, if_true, Option.some.injEq]
        constructor
        · intro hrec
          exact ⟨w, hwdb.1, hwdb.2, hpw, hrec.symm⟩
        · rintro ⟨u, hu, hun, -, hrec⟩
          have humem : u ∈ usersByUsername db un :=
            List.mem_filter.mpr ⟨hu, by simpa using hun⟩
          rw [hrec, usersByUsername_unique hnd humem hwmem]
      · simp only [if_neg hpw, reduceCtorEq, false_iff]
        rintro ⟨u, hu, hun, hupw, -⟩
        have humem : u ∈ usersByUsername db un :=
          List.mem_filter.mpr ⟨hu, by simpa using hun⟩
        exact hpw ((usersByUsername_unique hnd hwmem humem) ▸ hupw)

/-- Witness for C1 at a concrete one-row table and digest function. -/
theorem authenticate_iff_matching_row_witness :
    (([⟨1, "admin", "HH", "ADMIN", none⟩] : List UserRow).map
        (fun u => u.username)).Nodup ∧
      (authenticate (fun _ => "HH") [⟨1, "admin", "HH", "ADMIN", none⟩]
          "admin" "pw" = some ⟨1, "admin", "ADMIN", none⟩ ↔
        ∃ u ∈ ([⟨1, "admin", "HH", "ADMIN", none⟩] : List UserRow),
          u.username = "admin" ∧ u.password_hash = (fun _ => "HH") "pw" ∧
            (⟨1, "admin", "ADMIN", none⟩ : AuthUser) = authUserOf u) :=
  ⟨by decide,
   authenticate_iff_matching_row (fun _ => "HH")
     [⟨1, "admin", "HH", "ADMIN", none⟩] "admin" "pw" (by decide)
     ⟨1, "admin", "ADMIN", none⟩⟩

/-! ## C2 — navigation (`PAGES_ADMIN`, `PAGES_STUDENT`, `main`) -/

/-- The page-rendering functions of `app.py`, one constructor per
function.  `page_reports` is shared between the admin and student menus;
the two Opportunities pages are distinct functions. -/
inductive Page where
  | students
  | opportunitiesAdmin
  | announcementsAdmin
  | assessmentsAdmin
  | interviewsAdmin
  | applicationsAdmin
  | reports
  | usersAdmin
  | studentDashboard
  | studentProfile
  | opportunitiesStudent
deriving DecidableEq, Repr

/-- The `PAGES_ADMIN` dictionary: menu label to page function. -/
def PAGES_ADMIN : List (String × Page) :=
  [("Students", Page.students),
   ("Opportunities", Page.opportunitiesAdmin),
   ("Announcements", Page.announcementsAdmin),
   ("Assessments", Page.assessmentsAdmin),
   ("Interviews", Page.interviewsAdmin),
   ("Applications", Page.applicationsAdmin),
   ("Reports", Page.reports),
   ("Users", Page.usersAdmin)]

/-- The `PAGES_STUDENT` dictionary: menu label to page function. -/
def PAGES_STUDENT : List (String × Page) :=
  [("My Dashboard", Page.studentDashboard),
   ("My Profile", Page.studentProfile),
   ("Opportunities", Page.opportunitiesStudent),
   ("Reports", Page.reports)]

/-- The admin pages that perform create/update/delete operations: every
admin page except the read-only Reports page. -/
def adminCrudPages : List Page :=
  (PAGES_ADMIN.map Prod.snd).filter (fun p => p ≠ Page.reports)

/-- The set of pages an authenticated session can reach, from `main`:
an ADMIN session gets the `PAGES_ADMIN` menu; a STUDENT session is first
checked with `if not auth.get("student_id")` (Python truthiness: `None`
and `0` both fail it) and only a truthy `student_id` gets the
`PAGES_STUDENT` menu, otherwise an error message and no menu; any other
role gets an error message and no menu. -/
def reachablePages (role : String) (student_id : Option Int) : List Page :=
  if role = "ADMIN" then PAGES_ADMIN.map Prod.snd
  else if role = "STUDENT" then
    if pyTruthyOptInt student_id then PAGES_STUDENT.map Prod.snd else []
  else []

/-- C2 counterexample: a STUDENT session whose linked `student_id` is `0`
is treated as unlinked by `if not auth.get("student_id")`, so it reaches
no page at all — refuting "a session with role STUDENT and a linked
student_id can reach exactly the four student pages". -/
theorem student_zero_student_id_reaches_no_page :
    reachablePages "STUDENT" (some 0) = [] ∧
      reachablePages "STUDENT" (some 0) ≠ PAGES_STUDENT.map Prod.snd := by
  decide

/-- C2 (amended): reachable pages are determined solely by the session's
role and the truthiness of its `student_id`: an ADMIN session reaches
exactly the eight admin pages; a STUDENT session with a linked nonzero
`student_id` reaches exactly the four student pages; a STUDENT session
with no linked `student_id` (or one linked to id `0`, which Python
truthiness treats as unlinked) reaches no page other than an error
message; and no page reachable by any student session is an admin CRUD
page. -/
theorem reachablePages_by_role (sid : Option Int) (n : Int) (hn : n ≠ 0) :
    reachablePages "ADMIN" sid =
        [Page.students, Page.opportunitiesAdmin, Page.announcementsAdmin,
         Page.assessmentsAdmin, Page.interviewsAdmin, Page.applicationsAdmin,
         Page.reports, Page.usersAdmin] ∧
      reachablePages "STUDENT" (some n) =
        [Page.studentDashboard, Page.studentProfile,
         Page.opportunitiesStudent, Page.reports] ∧
      reachablePages "STUDENT" none = [] ∧
      reachablePages "STUDENT" (some 0) = [] ∧
      ∀ sid' : Option Int, ∀ p ∈ reachablePages "STUDENT" sid',
        p ∉ adminCrudPages := by
  refine ⟨rfl, ?_, rfl, rfl, ?_⟩
  · simp [reachablePages, pyTruthyOptInt, hn, PAGES_STUDENT]
  · intro sid' p hp
    match sid' with
    | none => simp [reachablePages, pyTruthyOptInt] at hp
    | some m =>
        by_cases hm : m = 0
        · subst hm; simp [reachablePages, pyTruthyOptInt] at hp
        · simp only [reachablePages, pyTruthyOptInt, if_neg, if_pos,
            reduceIte, hm] at hp
          have hp' : p ∈ [Page.studentDashboard, Page.studentProfile,
              Page.opportunitiesStudent, Page.reports] := by
            simpa [PAGES_STUDENT, hm] using hp
          fin_cases hp' <;> decide

/-- Witness for C2's amended theorem at `student_id = 7`. -/
theorem reachablePages_by_role_witness :
    (7 : Int) ≠ 0 ∧
      reachablePages "STUDENT" (some 7) =
        [Page.studentDashboard, Page.studentProfile,
         Page.opportunitiesStudent, Page.reports] :=
  ⟨by decide, (reachablePages_by_role (some 7) 7 (by decide)).2.1⟩

/-! ## C3 — deadline badges (`page_opportunities_admin`, `page_opportunities_student`) -/

/-- `badge(text, color)` from `app.py`: the HTML pill span. -/
def badge (text : String) (color : String) : String :=
  "<span style=\"padding:2px 8px;border-radius:12px;background:" ++ color ++
    ";color:white;font-size:12px;\">" ++ text ++ "</span>"

/-- `expired_badge()` from `app.py`. -/
def expired_badge : String :=
  "<span style=\"padding:2px 8px;border-radius:12px;background:#ef4444;color:white;font-size:12px;\">EXPIRED</span>"

/-- The deadline badge rendered for a row of the admin Opportunities
page, as a function of `fn_days_left_for_opportunity`'s value
(`r['days_left']`, NULL modelled as `none`):
`if ... is None` / `elif ... < 0` / `else`. -/
def deadlineBadgeAdmin (days_left : Option Int) : String :=
  match days_left with
  | none => badge "No Deadline" "#6b7280"
  | some n => if n < 0 then expired_badge else badge (toString n ++ " days left") "#2563eb"

/-- The deadline badge rendered for a row of the student Opportunities
page; the source repeats the same three-way branch. -/
def deadlineBadgeStudent (days_left : Option Int) : String :=
  match days_left with
  | none => badge "No Deadline" "#6b7280"
  | some n => if n < 0 then expired_badge else badge (toString n ++ " days left") "#2563eb"

/-- C3: on both the admin and the student Opportunities pages the
deadline badge is a three-way threshold on `fn_days_left_for_opportunity`:
a NULL `days_left` yields the "No Deadline" badge, `days_left < 0` yields
the EXPIRED badge, and `days_left ≥ 0` yields the "`days_left` days left"
badge. -/
theorem deadline_badge_threshold :
    (deadlineBadgeAdmin none = badge "No Deadline" "#6b7280" ∧
      deadlineBadgeStudent none = badge "No Deadline" "#6b7280") ∧
    (∀ n : Int, n < 0 →
      deadlineBadgeAdmin (some n) = expired_badge ∧
        deadlineBadgeStudent (some n) = expired_badge) ∧
    (∀ n : Int, 0 ≤ n →
      deadlineBadgeAdmin (some n) = badge (toString n ++ " days left") "#2563eb" ∧
        deadlineBadgeStudent (some n) = badge (toString n ++ " days left") "#2563eb") := by
  refine ⟨⟨rfl, rfl⟩, ?_, ?_⟩
  · intro n hn
    constructor <;> simp [deadlineBadgeAdmin, deadlineBadgeStudent, hn]
  · intro n hn
    constructor <;> simp [deadlineBadgeAdmin, deadlineBadgeStudent, not_lt.mpr hn]

/-- Witness for C3 at `days_left = -1` and `days_left = 3`. -/
theorem deadline_badge_threshold_witness :
    ((-1 : Int) < 0 ∧ deadlineBadgeAdmin (some (-1)) = expired_badge) ∧
      ((0 : Int) ≤ 3 ∧
        deadlineBadgeStudent (some 3) = badge (toString (3 : Int) ++ " days left") "#2563eb") :=
  ⟨⟨by decide, (deadline_badge_threshold.2.1 (-1) (by decide)).1⟩,
   ⟨by decide, (deadline_badge_threshold.2.2 3 (by decide)).2⟩⟩

/-! ## C4 — audit logging (`page_applications_admin`) -/

/-- SQL of the status update issued by the Update Status button. -/
def sqlUpdateStatus : String :=
  "UPDATE application SET status=%s WHERE application_id=%s"

/-- SQL of the audit insert issued after a status update. -/
def sqlAuditStatusChange : String :=
  "INSERT INTO application_audit(application_id, action, details) VALUES (%s,'STATUS_CHANGE',%s)"

/-- SQL of the status update issued by the Withdraw button. -/
def sqlUpdateWithdrawn : String :=
  "UPDATE application SET status='WITHDRAWN' WHERE application_id=%s"

/-- SQL of the audit insert issued after a withdraw. -/
def sqlAuditWithdraw : String :=
  "INSERT INTO application_audit(application_id, action, details) VALUES (%s,'WITHDRAW','User action')"

/-- SQL of the Delete Application button. -/
def sqlDeleteApplication : String :=
  "DELETE FROM application WHERE application_id=%s"

/-- A button press on the admin Applications page for application
`application_id`.  `old` is the status fetched when the row was rendered
(`r['status']`), `new` the selectbox choice; `updateFails` injects a
`mysql.connector.Error` into the first `execute` of the handler (the
handler's `try` then jumps to its `except`). -/
inductive AppAdminAction where
  | updateStatus (application_id : Int) (old new : String) (updateFails : Bool)
  | withdraw (application_id : Int) (updateFails : Bool)
  | deleteApp (application_id : Int)
deriving DecidableEq, Repr

/-- The database operations issued by `page_applications_admin` for one
button press, in program order.  When the first `execute` raises, the
`except Error` branch runs and nothing further is issued. -/
def appAdminOps : AppAdminAction → List DbOp
  | .updateStatus id old new uf =>
      if uf then
        [.executeOp sqlUpdateStatus [.strV new, .intV id]]
      else
        [.executeOp sqlUpdateStatus [.strV new, .intV id],
         .executeOp sqlAuditStatusChange [.intV id, .strV (old ++ " -> " ++ new)]]
  | .withdraw id uf =>
      if uf then
        [.executeOp sqlUpdateWithdrawn [.intV id]]
      else
        [.executeOp sqlUpdateWithdrawn [.intV id],
         .executeOp sqlAuditWithdraw [.intV id]]
  | .deleteApp id => [.executeOp sqlDeleteApplication [.intV id]]

/-- Whether the action's status-changing UPDATE executed successfully
(Delete removes the row; it does not change a status). -/
def statusChangeSucceeded : AppAdminAction → Bool
  | .updateStatus _ _ _ uf => !uf
  | .withdraw _ uf => !uf
  | .deleteApp _ => false

/-- Whether an operation is an insert into `application_audit`. -/
def isAuditInsert : DbOp → Bool
  | .executeOp sql _ => sql == sqlAuditStatusChange || sql == sqlAuditWithdraw
  | _ => false

/-- C4: on the admin Applications page, a successful Update Status issues
the UPDATE of `application.status` followed by an `application_audit`
insert whose SQL carries action 'STATUS_CHANGE' and whose details
parameter is "old -> new"; a successful Withdraw issues the WITHDRAWN
update followed by an insert whose SQL carries action 'WITHDRAW'; and no
action of the page whose status UPDATE succeeded fails to issue an audit
insert. -/
theorem application_status_changes_audited :
    (∀ (id : Int) (old new : String),
      appAdminOps (.updateStatus id old new false) =
        [.executeOp sqlUpdateStatus [.strV new, .intV id],
         .executeOp sqlAuditStatusChange
           [.intV id, .strV (old ++ " -> " ++ new)]]) ∧
    (∀ id : Int,
      appAdminOps (.withdraw id false) =
        [.executeOp sqlUpdateWithdrawn [.intV id],
         .executeOp sqlAuditWithdraw [.intV id]]) ∧
    (∀ a : AppAdminAction, statusChangeSucceeded a = true →
      (appAdminOps a).any isAuditInsert = true) := by
  refine ⟨fun id old new => rfl, fun id => rfl, ?_⟩
  intro a ha
  cases a with
  | updateStatus id old new uf =>
      cases uf with
      | false => simp [appAdminOps, isAuditInsert, sqlAuditStatusChange]
      | true => simp [statusChangeSucceeded] at ha
  | withdraw id uf =>
      cases uf with
      | false => simp [appAdminOps, isAuditInsert, sqlAuditWithdraw]
      | true => simp [statusChangeSucceeded] at ha
  | deleteApp id => simp [statusChangeSucceeded] at ha

/-- Witness for C4 at a concrete Update Status action. -/
theorem application_status_changes_audited_witness :
    statusChangeSucceeded (.updateStatus 4 "APPLIED" "OFFERED" false) = true ∧
      (appAdminOps (.updateStatus 4 "APPLIED" "OFFERED" false)).any
        isAuditInsert = true :=
  ⟨by decide,
   application_status_changes_audited.2.2
     (.updateStatus 4 "APPLIED" "OFFERED" false) (by decide)⟩

/-! ## C5 — stored-procedure workflows (`page_interviews_admin`,
`page_opportunities_student`, `combine_date_time`) -/

/-- A `datetime.date` value. -/
structure PyDate where
  year : Nat
  month : Nat
  day : Nat
deriving DecidableEq, Repr

/-- A `datetime.time` value (microseconds are dropped by
`combine_date_time`, so they are not modelled). -/
structure PyTime where
  hour : Nat
  minute : Nat
  second : Nat
deriving DecidableEq, Repr

/-- `combine_date_time(d, t)` from `app.py`:
`datetime.datetime(d.year, d.month, d.day, t.hour, t.minute, t.second)`. -/
def combine_date_time (d : PyDate) (t : PyTime) : SqlVal :=
  .dtV d.year d.month d.day t.hour t.minute t.second

/-- Database operations issued by the Schedule button of
`page_interviews_admin`: a single
`call_proc("sp_schedule_interview", ...)`. -/
def scheduleInterviewOps (application_id : Int) (d : PyDate) (t : PyTime)
    (mode venue panel : String) : List DbOp :=
  [.callProcOp "sp_schedule_interview"
    [.intV application_id, combine_date_time d t, .strV mode, .strV venue,
     .strV panel]]

/-- Database operations issued by the Apply button of
`page_opportunities_student`: a single
`call_proc("sp_create_application", (student_id, opportunity_id, 0))`. -/
def applyOps (student_id opportunity_id : Int) : List DbOp :=
  [.callProcOp "sp_create_application"
    [.intV student_id, .intV opportunity_id, .intV 0]]

/-- Whether an operation is a direct `execute` of an INSERT into the
`interview` or `application` table (matching `INSERT INTO interview` or
`INSERT INTO application` followed by an opening parenthesis or space,
so that `application_audit` does not match). -/
def isDirectInterviewOrApplicationInsert : DbOp → Bool
  | .executeOp sql _ =>
      (sql.startsWith "INSERT INTO interview(" ||
       sql.startsWith "INSERT INTO interview ") ||
      (sql.startsWith "INSERT INTO application(" ||
       sql.startsWith "INSERT INTO application ")
  | _ => false

/-- Count of stored-procedure calls named `name` in a trace. -/
def procCallCount (name : String) (ops : List DbOp) : Nat :=
  ops.countP (fun op =>
    match op with
    | .callProcOp n _ => n == name
    | _ => false)

/-- C5: both multi-step workflows go entirely through stored procedures:
scheduling an interview issues exactly one `sp_schedule_interview` call
carrying the selected application id, the combined date-time, mode,
venue, and panel; applying issues exactly one `sp_create_application`
call carrying `(student_id, opportunity_id, 0)`; and neither workflow
issues any direct INSERT into the `interview` or `application` tables —
indeed neither issues any `execute` at all. -/
theorem workflows_use_stored_procedures (application_id : Int)
    (d : PyDate) (t : PyTime) (mode venue panel : String)
    (student_id opportunity_id : Int) :
    scheduleInterviewOps application_id d t mode venue panel =
        [.callProcOp "sp_schedule_interview"
          [.intV application_id,
           .dtV d.year d.month d.day t.hour t.minute t.second,
           .strV mode, .strV venue, .strV panel]] ∧
      applyOps student_id opportunity_id =
        [.callProcOp "sp_create_application"
          [.intV student_id, .intV opportunity_id, .intV 0]] ∧
      procCallCount "sp_schedule_interview"
        (scheduleInterviewOps application_id d t mode venue panel) = 1 ∧
      procCallCount "sp_create_application"
        (applyOps student_id opportunity_id) = 1 ∧
      (scheduleInterviewOps application_id d t mode venue panel).all
        (fun op => !isDirectInterviewOrApplicationInsert op) = true ∧
      (applyOps student_id opportunity_id).all
        (fun op => !isDirectInterviewOrApplicationInsert op) = true := by
  refine ⟨rfl, rfl, ?_, ?_, rfl, rfl⟩
  · simp [procCallCount, scheduleInterviewOps]
  · simp [procCallCount, applyOps]

/-! ## C6 — Add Student form (`page_students`) -/

/-- The text fields of the Add Student form. -/
structure AddStudentForm where
  roll : String
  first : String
  last : String
  dept : String
  email : String
  phone : String
  batch : String
  cgpa : String
deriving DecidableEq, Repr

/-- Outcome of submitting the Add Student form. -/
inductive AddStudentOutcome where
  /-- `st.error("Please fill all required fields.")`; no INSERT. -/
  | errRequired
  /-- `st.error("Batch must be a 4-digit year.")`; no INSERT. -/
  | errBatch
  /-- `float(cgpa)` raised `ValueError`; the exception is uncaught
  (only `mysql.connector.Error` is handled) and no INSERT is issued. -/
  | raisedValueError
  /-- The parameterized INSERT into `student` was issued with the coerced
  `int(batch)` and `float(cgpa)` values. -/
  | insertIssued (batchVal : Nat) (cgpaVal : PyFloat)
deriving DecidableEq, Repr

/-- The required-field check of the Create handler:
`not (roll and first and last and dept and email and batch and cgpa)`
negated (Python string truthiness). -/
def requiredOk (f : AddStudentForm) : Bool :=
  pyTruthyStr f.roll && pyTruthyStr f.first && pyTruthyStr f.last &&
    pyTruthyStr f.dept && pyTruthyStr f.email && pyTruthyStr f.batch &&
    pyTruthyStr f.cgpa

/-- The batch check of the Create handler:
`batch.isdigit() and len(batch)==4`. -/
def batchOk (f : AddStudentForm) : Bool :=
  pyIsDigit f.batch && f.batch.length == 4

/-- The Create handler of the Add Student form: the two validation
branches, then the INSERT with `int(batch)` and `float(cgpa)` computed
while building the parameter tuple.  A `ValueError` from `float` occurs
before `execute` is reached and is not caught by the handler's
`except Error` clause. -/
def addStudentHandler (f : AddStudentForm) : AddStudentOutcome :=
  if !requiredOk f then .errRequired
  else if !batchOk f then .errBatch
  else
    match pyFloat f.cgpa with
    | none => .raisedValueError
    | some c => .insertIssued (pyIntOfDigits f.batch) c

/-- C6 counterexample: with every required field non-empty and a
four-digit batch, but `cgpa = "x"`, validation passes yet no INSERT is
issued — `float("x")` raises an uncaught `ValueError` — refuting "the
INSERT is issued if and only if every required field is non-empty and
batch is a string of exactly four digits". -/
theorem add_student_insert_not_issued_for_bad_cgpa :
    requiredOk ⟨"R1", "A", "B", "CS", "a@b.c", "", "2027", "x"⟩ = true ∧
      batchOk ⟨"R1", "A", "B", "CS", "a@b.c", "", "2027", "x"⟩ = true ∧
      addStudentHandler ⟨"R1", "A", "B", "CS", "a@b.c", "", "2027", "x"⟩ =
        .raisedValueError := by
  refine ⟨by decide, by decide, ?_⟩
  decide

/-- C6 (amended): the INSERT into `student` is issued if and only if
every required field (roll, first name, last name, department, email,
batch, cgpa) is non-empty, batch is a string of exactly four digits, and
cgpa is accepted by Python `float`; when the non-emptiness or batch
validation fails an inline error message is shown and no INSERT is
issued; when validation passes but cgpa is not a valid float literal,
`float` raises an uncaught `ValueError` and no INSERT is issued; and
when the INSERT is issued, batch has been coerced with `int` and cgpa
with `float`. -/
theorem add_student_insert_iff_valid (f : AddStudentForm) :
    ((∃ b c, addStudentHandler f = .insertIssued b c) ↔
      requiredOk f = true ∧ batchOk f = true ∧ (pyFloat f.cgpa).isSome) ∧
    (requiredOk f = false → addStudentHandler f = .errRequired) ∧
    (requiredOk f = true → batchOk f = false →
      addStudentHandler f = .errBatch) ∧
    (requiredOk f = true → batchOk f = true → pyFloat f.cgpa = none →
      addStudentHandler f = .raisedValueError) ∧
    (∀ b c, addStudentHandler f = .insertIssued b c →
      b = pyIntOfDigits f.batch ∧ pyFloat f.cgpa = some c) := by
  unfold addStudentHandler
  cases hr : requiredOk f with
  | false => simp
  | true =>
      cases hb : batchOk f with
      | false => simp
      | true =>
          cases hc : pyFloat f.cgpa with
          | none => simp
          | some c => simp

/-- Witness for C6's amended theorem at a fully valid concrete form. -/
theorem add_student_insert_iff_valid_witness :
    requiredOk ⟨"R1", "A", "B", "CS", "a@b.c", "", "2027", "8.5"⟩ = true ∧
      batchOk ⟨"R1", "A", "B", "CS", "a@b.c", "", "2027", "8.5"⟩ = true ∧
      (pyFloat "8.5").isSome ∧
      (∃ b c, addStudentHandler ⟨"R1", "A", "B", "CS", "a@b.c", "", "2027", "8.5"⟩ =
        .insertIssued b c) :=
  ⟨by decide, by decide, by decide,
   (add_student_insert_iff_valid
       ⟨"R1", "A", "B", "CS", "a@b.c", "", "2027", "8.5"⟩).1.mpr
     ⟨by decide, by decide, by decide⟩⟩

/-! ## C7 — per-operation error handling

An inventory of every database call site in `app.py` — each call to
`query`, `execute`, or `call_proc` — recording the enclosing function,
the source line of the call, the kind of helper called, and whether the
call is lexically inside a
`try: ... except Error as e: st.error(f"MySQL Error: ...")` block. -/

/-- Which of the three database helpers a call site invokes. -/
inductive DbCallKind where
  /-- `query` — a read-only SELECT returning rows. -/
  | selectQ
  /-- `execute` — INSERT/UPDATE/DELETE. -/
  | mutate
  /-- `call_proc` — stored procedure call. -/
  | proc
deriving DecidableEq, Repr

/-- One database call site of `app.py`. -/
structure DbCallSite where
  page : String
  line : Nat
  kind : DbCallKind
  /-- `true` when the call is inside `try ... except Error` with the
  inline `st.error(f"MySQL Error: ...")` message. -/
  caught : Bool
deriving DecidableEq, Repr

/-- Every database call site of `app.py`, in source order. -/
def appDbCallSites : List DbCallSite :=
  [⟨"authenticate", 110, .selectQ, false⟩,
   ⟨"page_students", 173, .mutate, true⟩,
   ⟨"page_students", 181, .selectQ, false⟩,
   ⟨"page_students", 196, .selectQ, false⟩,
   ⟨"page_students", 230, .mutate, true⟩,
   ⟨"page_students", 241, .mutate, true⟩,
   ⟨"page_opportunities_admin", 250, .selectQ, false⟩,
   ⟨"page_opportunities_admin", 275, .mutate, true⟩,
   ⟨"page_opportunities_admin", 284, .selectQ, false⟩,
   ⟨"page_opportunities_admin", 299, .mutate, true⟩,
   ⟨"page_announcements_admin", 313, .selectQ, false⟩,
   ⟨"page_announcements_admin", 324, .mutate, true⟩,
   ⟨"page_announcements_admin", 332, .selectQ, false⟩,
   ⟨"page_announcements_admin", 345, .mutate, true⟩,
   ⟨"page_assessments_admin", 355, .selectQ, false⟩,
   ⟨"page_assessments_admin", 368, .mutate, true⟩,
   ⟨"page_assessments_admin", 378, .selectQ, false⟩,
   ⟨"page_assessments_admin", 396, .mutate, true⟩,
   ⟨"page_interviews_admin", 406, .selectQ, false⟩,
   ⟨"page_interviews_admin", 423, .proc, true⟩,
   ⟨"page_interviews_admin", 429, .selectQ, false⟩,
   ⟨"page_interviews_admin", 455, .mutate, true⟩,
   ⟨"page_applications_admin", 463, .selectQ, false⟩,
   ⟨"page_applications_admin", 490, .mutate, true⟩,
   ⟨"page_applications_admin", 491, .mutate, true⟩,
   ⟨"page_applications_admin", 500, .mutate, true⟩,
   ⟨"page_applications_admin", 501, .mutate, true⟩,
   ⟨"page_applications_admin", 509, .mutate, true⟩,
   ⟨"page_reports", 520, .selectQ, false⟩,
   ⟨"page_reports", 525, .selectQ, false⟩,
   ⟨"page_reports", 530, .selectQ, false⟩,
   ⟨"page_reports", 539, .selectQ, false⟩,
   ⟨"page_reports", 542, .selectQ, false⟩,
   ⟨"page_reports", 544, .selectQ, false⟩,
   ⟨"page_reports", 546, .selectQ, false⟩,
   ⟨"page_users_admin", 556, .selectQ, false⟩,
   ⟨"page_users_admin", 565, .mutate, true⟩,
   ⟨"page_users_admin", 571, .selectQ, false⟩,
   ⟨"page_users_admin", 584, .mutate, true⟩,
   ⟨"page_student_dashboard", 599, .selectQ, false⟩,
   ⟨"page_student_dashboard", 618, .selectQ, false⟩,
   ⟨"page_student_profile", 637, .selectQ, false⟩,
   ⟨"page_student_profile", 657, .mutate, true⟩,
   ⟨"page_opportunities_student", 668, .selectQ, false⟩,
   ⟨"page_opportunities_student", 677, .selectQ, false⟩,
   ⟨"page_opportunities_student", 680, .selectQ, false⟩,
   ⟨"page_opportunities_student", 707, .proc, true⟩]

/-- C7 counterexample: the read-only SELECT that renders the Reports
page (`vw_opportunity_stats`, line 520) is not inside any
`try/except Error` block, so a database error raised there is not caught
and surfaced as an inline "MySQL Error: ..." message — refuting "this
holds for every database operation, including the read-only SELECT
queries that render page listings". -/
theorem reports_listing_query_not_caught :
    (⟨"page_reports", 520, .selectQ, false⟩ : DbCallSite) ∈ appDbCallSites ∧
      ¬ ∀ c ∈ appDbCallSites, c.caught = true := by
  constructor
  · decide
  · intro h
    have := h ⟨"page_reports", 520, .selectQ, false⟩ (by decide)
    simp at this

/-- C7 (amended): a database call site of `app.py` is wrapped in
`try/except Error` with the inline "MySQL Error: ..." message exactly
when it is a data-modifying operation — an `execute` or a `call_proc`
issued by a form handler; the read-only SELECT queries that render page
listings (and the login lookup) are not wrapped, and a database error
raised by them propagates uncaught.  No retry or recovery exists
anywhere. -/
theorem db_errors_caught_iff_mutation :
    ∀ c ∈ appDbCallSites, c.caught = true ↔ c.kind ≠ DbCallKind.selectQ := by
  decide

/-- Witness for C7's amended theorem at the Reports-page SELECT and the
Add Student INSERT. -/
theorem db_errors_caught_iff_mutation_witness :
    ((⟨"page_reports", 520, .selectQ, false⟩ : DbCallSite).caught = true ↔
      (⟨"page_reports", 520, .selectQ, false⟩ : DbCallSite).kind ≠
        DbCallKind.selectQ) ∧
    ((⟨"page_students", 173, .mutate, true⟩ : DbCallSite).caught = true ↔
      (⟨"page_students", 173, .mutate, true⟩ : DbCallSite).kind ≠
        DbCallKind.selectQ) :=
  ⟨db_errors_caught_iff_mutation ⟨"page_reports", 520, .selectQ, false⟩
     (by decide),
   db_errors_caught_iff_mutation ⟨"page_students", 173, .mutate, true⟩
     (by decide)⟩

/-! ## C8 — connection lifecycle (`query`, `execute`, `call_proc`)

Each helper is `conn = None; try: conn = get_conn(); ...; finally:
if conn: conn.close()`.  The model injects a possible exception at each
step that touches the server and records the connection open/close
events of one run; the second component tells whether the helper raised. -/

/-- A connection lifecycle event. -/
inductive ConnEv where
  | opened (id : Nat)
  | closed (id : Nat)
deriving DecidableEq, Repr

/-- Which steps of a database helper raise during one run. -/
structure DbFailures where
  /-- `get_conn()` (i.e. `mysql.connector.connect`) raises. -/
  connectFails : Bool
  /-- `cur.execute` / `cur.callproc` raises. -/
  sqlFails : Bool
  /-- `cur.fetchall()` / iterating `cur.stored_results()` raises. -/
  fetchFails : Bool
  /-- `conn.commit()` raises. -/
  commitFails : Bool
deriving DecidableEq, Repr

/-- One run of `query(sql, params)`: connect, `cur.execute`, `fetchall`,
return; the `finally` closes the connection whenever `conn` was bound. -/
def queryRun (w : DbFailures) (id : Nat) : List ConnEv × Bool :=
  if w.connectFails then ([], true)
  else if w.sqlFails then ([.opened id, .closed id], true)
  else if w.fetchFails then ([.opened id, .closed id], true)
  else ([.opened id, .closed id], false)

/-- One run of `execute(sql, params)`: connect, `cur.execute`,
`conn.commit`, return rowcount; `finally` closes. -/
def executeRun (w : DbFailures) (id : Nat) : List ConnEv × Bool :=
  if w.connectFails then ([], true)
  else if w.sqlFails then ([.opened id, .closed id], true)
  else if w.commitFails then ([.opened id, .closed id], true)
  else ([.opened id, .closed id], false)

/-- One run of `call_proc(name, args)`: connect, `cur.callproc`, drain
`stored_results`, `conn.commit`; `finally` closes. -/
def callProcRun (w : DbFailures) (id : Nat) : List ConnEv × Bool :=
  if w.connectFails then ([], true)
  else if w.sqlFails then ([.opened id, .closed id], true)
  else if w.fetchFails then ([.opened id, .closed id], true)
  else if w.commitFails then ([.opened id, .closed id], true)
  else ([.opened id, .closed id], false)

/-- The connections still open after a trace. -/
def openAtEnd (t : List ConnEv) : List Nat :=
  t.foldl (fun acc e =>
    match e with
    | .opened i => i :: acc
    | .closed i => acc.erase i) []

/-- C8: on every execution path of `query`, `execute`, and `call_proc` —
including paths on which connecting, the SQL step, the fetch, or the
commit raises — the trace is either empty (connecting itself failed, so
no connection was ever opened) or opens exactly one fresh connection and
closes it before the helper returns; in particular no connection remains
open after any run. -/
theorem connection_closed_every_path (w : DbFailures) (id : Nat) :
    (((queryRun w id).1 = [] ∧ w.connectFails = true) ∨
        (queryRun w id).1 = [ConnEv.opened id, ConnEv.closed id]) ∧
      (((executeRun w id).1 = [] ∧ w.connectFails = true) ∨
        (executeRun w id).1 = [ConnEv.opened id, ConnEv.closed id]) ∧
      (((callProcRun w id).1 = [] ∧ w.connectFails = true) ∨
        (callProcRun w id).1 = [ConnEv.opened id, ConnEv.closed id]) ∧
      openAtEnd (queryRun w id).1 = [] ∧
      openAtEnd (executeRun w id).1 = [] ∧
      openAtEnd (callProcRun w id).1 = [] := by
  obtain ⟨a, b, c, d⟩ := w
  cases a <;> cases b <;> cases c <;> cases d <;>
    simp [queryRun, executeRun, callProcRun, openAtEnd]

/-! ## C9 — Save Contact Info frame (`page_student_profile`) -/

/-- A row of the `student` table. -/
structure StudentRow where
  student_id : Int
  roll_no : String
  first_name : String
  last_name : String
  email : String
  phone : String
  department : String
  batch : Nat
  cgpa : Rat
deriving DecidableEq, Repr

/-- Semantics of
`UPDATE student SET email=%s, phone=%s WHERE student_id=%s` as issued by
the Save Contact Info handler: `main` calls `page_student_profile` with
the session's `student_id`, so `sid` is the logged-in student's id. -/
def updateContactInfo (db : List StudentRow) (sid : Int)
    (email phone : String) : List StudentRow :=
  db.map (fun s =>
    if s.student_id = sid then { s with email := email, phone := phone }
    else s)

/-- C9: the Save Contact Info update touches only the `email` and
`phone` columns of rows whose `student_id` equals the session's
`student_id`: row for row, every other column (roll_no, first_name,
last_name, department, batch, cgpa — and the id itself) is unchanged,
every non-matching row is entirely unchanged, and the matching row is
the old row with only email and phone replaced. -/
theorem save_contact_info_frame (db : List StudentRow) (sid : Int)
    (e p : String) :
    List.Forall₂ (fun old new =>
        new.student_id = old.student_id ∧ new.roll_no = old.roll_no ∧
        new.first_name = old.first_name ∧ new.last_name = old.last_name ∧
        new.department = old.department ∧ new.batch = old.batch ∧
        new.cgpa = old.cgpa ∧
        (old.student_id ≠ sid → new = old) ∧
        (old.student_id = sid →
          new = { old with email := e, phone := p }))
      db (updateContactInfo db sid e p) := by
  induction db with
  | nil => exact List.Forall₂.nil
  | cons s tl ih =>
      refine List.Forall₂.cons ?_ ih
      by_cases h : s.student_id = sid <;> simp [h]

/-- Witness for C9 at a two-row table (one matching, one other row). -/
theorem save_contact_info_frame_witness :
    List.Forall₂ (fun old new =>
        new.student_id = old.student_id ∧ new.roll_no = old.roll_no ∧
        new.first_name = old.first_name ∧ new.last_name = old.last_name ∧
        new.department = old.department ∧ new.batch = old.batch ∧
        new.cgpa = old.cgpa ∧
        (old.student_id ≠ 1 → new = old) ∧
        (old.student_id = 1 →
          new = { old with email := "n@x.y", phone := "99" }))
      [⟨1, "R1", "A", "B", "a@b.c", "1", "CS", 2027, 8⟩,
       ⟨2, "R2", "C", "D", "c@d.e", "2", "EE", 2026, 9⟩]
      (updateContactInfo
        [⟨1, "R1", "A", "B", "a@b.c", "1", "CS", 2027, 8⟩,
         ⟨2, "R2", "C", "D", "c@d.e", "2", "EE", 2026, 9⟩]
        1 "n@x.y" "99") :=
  save_contact_info_frame
    [⟨1, "R1", "A", "B", "a@b.c", "1", "CS", 2027, 8⟩,
     ⟨2, "R2", "C", "D", "c@d.e", "2", "EE", 2026, 9⟩]
    1 "n@x.y" "99"

/-! ## C10 — Users page delete gating (`page_users_admin`) -/

/-- A row of the Users page listing. -/
structure UsersPageRow where
  user_id : Int
  username : String
  role : String
  created_at : String
  student_id : Option Int
deriving DecidableEq, Repr

/-- Whether the Delete button is rendered for a listed user:
`if u['username'] != "admin"`. -/
def deleteButtonOffered (u : UsersPageRow) : Bool :=
  u.username != "admin"

/-- SQL of the Users page Delete button. -/
def sqlDeleteUser : String := "DELETE FROM users WHERE user_id=%s"

/-- The DELETE operations issued by one rendering of the Users page,
given which of the rendered Delete buttons were pressed: a DELETE is
issued for a row only when its button was rendered and pressed. -/
def usersPageDeleteOps (users : List UsersPageRow)
    (clicked : UsersPageRow → Bool) : List DbOp :=
  (users.filter (fun u => deleteButtonOffered u && clicked u)).map
    (fun u => .executeOp sqlDeleteUser [.intV u.user_id])

/-- C10: the Users page offers a Delete button for a listed user if and
only if that user's username is not "admin", and every DELETE FROM users
statement the page issues stems from a listed, clicked row whose
username is not "admin" — the user named "admin" can never be deleted
through this page. -/
theorem admin_user_never_deletable :
    (∀ u : UsersPageRow,
      deleteButtonOffered u = true ↔ u.username ≠ "admin") ∧
    (∀ (users : List UsersPageRow) (clicked : UsersPageRow → Bool),
      ∀ op ∈ usersPageDeleteOps users clicked,
        ∃ u ∈ users, u.username ≠ "admin" ∧ clicked u = true ∧
          op = .executeOp sqlDeleteUser [.intV u.user_id]) := by
  constructor
  · intro u
    simp [deleteButtonOffered]
  · intro users clicked op hop
    simp only [usersPageDeleteOps, List.mem_map, List.mem_filter,
      Bool.and_eq_true, deleteButtonOffered, bne_iff_ne, ne_eq] at hop
    obtain ⟨u, ⟨hu, hname, hcl⟩, hop⟩ := hop
    exact ⟨u, hu, hname, hcl, hop.symm⟩

/-- Witness for C10: on a concrete listing with the "admin" user and one
other user whose button is pressed, every issued DELETE comes from the
non-admin row. -/
theorem admin_user_never_deletable_witness :
    (DbOp.executeOp sqlDeleteUser [SqlVal.intV 2]) ∈
        usersPageDeleteOps
          [⟨1, "admin", "ADMIN", "t0", none⟩,
           ⟨2, "aarav", "STUDENT", "t1", some 1⟩]
          (fun u => u.user_id == 2) ∧
      ∃ u ∈ ([⟨1, "admin", "ADMIN", "t0", none⟩,
              ⟨2, "aarav", "STUDENT", "t1", some 1⟩] : List UsersPageRow),
        u.username ≠ "admin" ∧ (fun u => u.user_id == 2) u = true ∧
          (DbOp.executeOp sqlDeleteUser [SqlVal.intV 2]) =
            .executeOp sqlDeleteUser [.intV u.user_id] :=
  ⟨by decide,
   admin_user_never_deletable.2
     [⟨1, "admin", "ADMIN", "t0", none⟩, ⟨2, "aarav", "STUDENT", "t1", some 1⟩]
     (fun u => u.user_id == 2)
     (DbOp.executeOp sqlDeleteUser [SqlVal.intV 2]) (by decide)⟩

end PlacementPortal
